import Mathlib

/-
Verification development for the accounts module of tinydecred
(src/accounts.py).  The Python code is shallowly embedded: mutable
object state becomes explicit record passing, Python dicts become
insertion-ordered association lists, raised exceptions become an error
component of the result.  External collaborators that are not part of
the repository sources (the crypto package, the api UTXO/Transaction
types, the Python standard library hmac) are modelled from the spec as
explicit parameters or small record types, as noted at each definition.
-/

namespace Tinydecred

/-- A raised Python exception, reduced to the class name and message. -/
structure PyErr where
  cls : String
  msg : String
deriving DecidableEq

deriving instance DecidableEq for Except

/-- Mutable Python bytearray contents, one Nat per byte. -/
abbrev Bytes := List Nat

/-- Modelled from the spec: ByteArray.zero / ExtendedKey.zero from
tinydecred.crypto (not under src/) erase the buffer in place; the spec
calls for a zero-fill of every byte. -/
def zeroBytes (b : Bytes) : Bytes := b.map (fun _ => 0)

/-- Every byte of the buffer is zero. -/
def allZero (b : Bytes) : Prop := ∀ x ∈ b, x = 0

/-- int.from_bytes(b, byteorder=big). -/
def fromBytesBE (b : Bytes) : Nat := b.foldl (fun acc x => acc * 256 + x) 0

/-- accounts.py line 22. -/
def EXTERNAL_BRANCH : Nat := 0

/-- accounts.py line 23. -/
def INTERNAL_BRANCH : Nat := 1

/-- accounts.py line 24: the ASCII bytes of the fixed HMAC domain key. -/
def MASTER_KEY : Bytes := [66, 105, 116, 99, 111, 105, 110, 32, 115, 101, 101, 100]

/-- accounts.py line 25. -/
def MAX_SECRET_INT : Nat :=
  115792089237316195423570985008687907852837564279074904382605163141518161494337

/-- accounts.py line 29. -/
def CrazyAddress : String := "CRAZYADDRESS"

/-- Modelled from the spec: the order of the secp256k1 group, the
curve order the spec refers to in the master-key range check.  It is
numerically the same value as MAX_SECRET_INT in the source. -/
def secp256k1Order : Nat :=
  115792089237316195423570985008687907852837564279074904382605163141518161494337

/-- Modelled from the spec: the minimum accepted seed length.  The
constant lives in tinydecred.pydecred.constants, which is not under
src/; the spec only requires network-defined inclusive bounds.  The
dcrd-compatible value is used. -/
def MinSeedBytes : Nat := 16

/-- Modelled from the spec: the maximum accepted seed length (see
MinSeedBytes). -/
def MaxSeedBytes : Nat := 64

/-- Network parameters, as used by the accounts module: BIP32 key
magics and the coinbase maturity window. -/
structure Network where
  HDPrivateKeyID : Bytes
  HDPublicKeyID : Bytes
  CoinbaseMaturity : Int
deriving DecidableEq

/-- The fields of crypto.ExtendedKey that newMaster constructs
(accounts.py lines 75 to 85).  The class itself lives in
tinydecred.crypto (not under src/); only the constructed record is
modelled. -/
structure ExtendedKey where
  privVer : Bytes
  pubVer : Bytes
  key : Bytes
  pubKey : Bytes
  chainCode : Bytes
  parentFP : Bytes
  depth : Nat
  childNum : Nat
  isPrivate : Bool
deriving DecidableEq

/-- accounts.py lines 39 to 85, newMaster.  The HMAC-SHA512 digest
function is Python standard library code, passed here as an explicit
parameter; everything after the digest follows the source line by
line.  The assert on the seed length (line 55) is modelled as an
AssertionError result; the range check (line 70) raises
KeyLengthException with strict comparison against MAX_SECRET_INT. -/
def newMaster (hmacSha512 : Bytes → Bytes → Bytes) (seed : Bytes) (network : Network) :
    Except PyErr ExtendedKey :=
  let seedLen := seed.length
  if MinSeedBytes ≤ seedLen ∧ seedLen ≤ MaxSeedBytes then
    let lr := hmacSha512 MASTER_KEY seed
    let lrLen := lr.length / 2
    let secretKey := lr.take lrLen
    let chainCode := lr.drop lrLen
    let secretInt := fromBytesBE secretKey
    if MAX_SECRET_INT < secretInt ∨ secretInt = 0 then
      Except.error ⟨"KeyLengthException", "generated key was outside acceptable range"⟩
    else
      Except.ok
        { privVer := network.HDPrivateKeyID
          pubVer := network.HDPublicKeyID
          key := secretKey
          pubKey := []
          chainCode := chainCode
          parentFP := [0, 0, 0, 0]
          depth := 0
          childNum := 0
          isPrivate := true }
  else
    Except.error ⟨"AssertionError", "seed length out of range"⟩

/-- accounts.py lines 115 to 135, class Balance.  The extra `avail`
field mirrors a dynamic Python attribute: calcBalance assigns
self.balance.avail, which creates a new attribute on the object
instead of updating `available`; it is none until that assignment
happens. -/
structure Balance where
  total : Int
  available : Int
  avail : Option Int
deriving DecidableEq

/-- Balance() with the default arguments (accounts.py line 122). -/
def Balance.mk0 : Balance := { total := 0, available := 0, avail := none }

/-- Modelled from the spec: api.UTXO is not under src/.  The spec data
model gives a UTXO as (transactionId, outputIndex) carrying address,
amount, optional height, optional maturity and a confirmed status;
isConfirmed() is the confirmed flag. -/
structure UTXO where
  txid : String
  vout : Nat
  address : String
  satoshis : Int
  height : Option Int
  maturity : Option Int
  confirmed : Bool
deriving DecidableEq

/-- Modelled from the spec: the api Transaction interface is not under
src/.  The accounts module only calls txid() and looksLikeCoinbase(). -/
structure Tx where
  txid : String
  looksLikeCoinbase : Bool
deriving DecidableEq

/-- A cached branch public extended key (the objects stored in
Account.extPub / Account.intPub).  Modelled from the spec: the crypto
ExtendedKey capability is external; the account layer uses its key and
pubKey buffers (zeroed on close) and deriveChildAddress, modelled as a
function from the child index to an address, none meaning the
ParameterRangeError case. -/
structure BranchPub where
  key : Bytes
  pubKey : Bytes
  derive : Int → Option String

/-- accounts.py lines 140 to 174, class Account state. -/
structure Account where
  pubKeyEncrypted : String
  privKeyEncrypted : String
  name : String
  net : Option Network
  lastExternalIndex : Int
  lastInternalIndex : Int
  externalAddresses : List String
  internalAddresses : List String
  cursor : Nat
  balance : Balance
  mempool : List (String × Tx)
  txs : List (String × List String)
  utxos : List (String × UTXO)
  privKey : Option ExtendedKey
  extPub : Option BranchPub
  intPub : Option BranchPub

/-- Account.__init__ (accounts.py lines 146 to 174). -/
def Account.mk0 (pubKeyEncrypted privKeyEncrypted name : String) : Account :=
  { pubKeyEncrypted := pubKeyEncrypted
    privKeyEncrypted := privKeyEncrypted
    name := name
    net := none
    lastExternalIndex := -1
    lastInternalIndex := -1
    externalAddresses := []
    internalAddresses := []
    cursor := 0
    balance := Balance.mk0
    mempool := []
    txs := []
    utxos := []
    privKey := none
    extPub := none
    intPub := none }

/-- dict.pop(key, None) on an insertion-ordered mapping: drop the
entry with the given key, if present. -/
def popKey {β : Type} (key : String) : List (String × β) → List (String × β)
  | [] => []
  | p :: ps => if p.1 = key then ps else p :: popKey key ps

/-- list.index: position of the first occurrence, none when absent
(the ValueError case). -/
def indexOfStr : List String → String → Option Nat
  | [], _ => none
  | y :: ys, x => if y = x then some 0 else (indexOfStr ys x).map (· + 1)

/-- accounts.py lines 336 to 355, calcBalance.  The source iterates
`for utxo in self.utxos` directly over the dict, which yields the KEY
strings, so the very first loop iteration evaluates `utxo.satoshis` on
a str and raises AttributeError; with an empty utxos map the loop body
never runs, tot and avail stay 0, and the final writes are
self.balance.total = 0 and self.balance.avail = 0 — the second one
creates a new `avail` attribute and leaves `available` untouched. -/
def Account.calcBalance (acct : Account) (_tipHeight : Int) : Account × Except PyErr Balance :=
  match acct.utxos with
  | [] =>
    let b := { acct.balance with total := 0, avail := some 0 }
    ({ acct with balance := b }, Except.ok b)
  | _ :: _ =>
    (acct, Except.error ⟨"AttributeError", "str object has no attribute satoshis"⟩)

/-- accounts.py lines 356 to 374, generateNextPaymentAddress.  The
index-length invariant is checked first; then the external branch
public key derives the address at lastExternalIndex + 1, a
ParameterRangeError being replaced by CrazyAddress; the address is
appended and the index advanced.  A closed account (extPub None)
raises AttributeError at the derivation call. -/
def Account.generateNextPaymentAddress (acct : Account) : Account × Except PyErr String :=
  if (acct.externalAddresses.length : Int) ≠ acct.lastExternalIndex + 1 then
    (acct, Except.error ⟨"Exception", "index-address length mismatch"⟩)
  else
    let idx := acct.lastExternalIndex + 1
    match acct.extPub with
    | none =>
      (acct, Except.error ⟨"AttributeError", "NoneType object has no attribute deriveChildAddress"⟩)
    | some pb =>
      let addr :=
        match pb.derive idx with
        | some a => a
        | none => CrazyAddress
      ({ acct with
          externalAddresses := acct.externalAddresses ++ [addr]
          lastExternalIndex := idx },
       Except.ok addr)

/-- accounts.py lines 402 to 419, getChangeAddress: the same contract
on the internal branch, with its own mismatch message. -/
def Account.getChangeAddress (acct : Account) : Account × Except PyErr String :=
  if (acct.internalAddresses.length : Int) ≠ acct.lastInternalIndex + 1 then
    (acct, Except.error ⟨"Exception", "index-address length mismatch while generating change address"⟩)
  else
    let idx := acct.lastInternalIndex + 1
    match acct.intPub with
    | none =>
      (acct, Except.error ⟨"AttributeError", "NoneType object has no attribute deriveChildAddress"⟩)
    | some pb =>
      let addr :=
        match pb.derive idx with
        | some a => a
        | none => CrazyAddress
      ({ acct with
          internalAddresses := acct.internalAddresses ++ [addr]
          lastInternalIndex := idx },
       Except.ok addr)

/-- The loop `while len(self.externalAddresses) < target:
self.generateNextPaymentAddress()`, with an explicit fuel argument.
Each successful iteration appends exactly one address, so a fuel of
target - length reaches the guard-false exit (or an error) before
running out; growExternal below supplies exactly that fuel, and the
growExternal_stop / growExternal_step lemmas establish the while-loop
semantics. -/
def Account.growLoop : Nat → Account → Nat → Account × Option PyErr
  | 0, acct, _target => (acct, none)
  | fuel + 1, acct, target =>
    if acct.externalAddresses.length < target then
      match acct.generateNextPaymentAddress with
      | (a1, Except.ok _) => Account.growLoop fuel a1 target
      | (a1, Except.error e) => (a1, some e)
    else (acct, none)

/-- Run the external-address growth loop until the list has at least
`target` entries (or a generation error escapes). -/
def Account.growExternal (acct : Account) (target : Nat) : Account × Option PyErr :=
  Account.growLoop (target - acct.externalAddresses.length) acct target

/-- accounts.py lines 375 to 385, getNextPaymentAddress: advance the
cursor, grow the external list while the cursor is out of range, then
return the address at the cursor.  The final statement of the source,
`return self.externalAddresses(self.cursor)`, CALLS the list instead
of indexing it, so every call that reaches it raises TypeError; the
cursor advance and any list growth have already happened by then. -/
def Account.getNextPaymentAddress (acct : Account) : Account × Except PyErr String :=
  let a1 := { acct with cursor := acct.cursor + 1 }
  match a1.growExternal (a1.cursor + 1) with
  | (a2, some e) => (a2, Except.error e)
  | (a2, none) => (a2, Except.error ⟨"TypeError", "list object is not callable"⟩)

/-- The fold computing `highest` in generateGapAddresses (accounts.py
lines 393 to 398): over the keys of the txs mapping, take the largest
index at which the key occurs in externalAddresses, ignoring keys that
do not occur; the running value starts at 0. -/
def Account.highestUsedExt (acct : Account) : Nat :=
  acct.txs.foldl
    (fun h p =>
      match indexOfStr acct.externalAddresses p.1 with
      | some i => max h i
      | none => h) 0

/-- accounts.py lines 386 to 401, generateGapAddresses.  When extPub
is None the source only logs a warning — there is no early return —
and execution falls through to the growth loop; the loop target is
highest + gap. -/
def Account.generateGapAddresses (acct : Account) (gap : Int) : Account × Option PyErr :=
  let highest : Nat := acct.highestUsedExt
  let tip : Int := (highest : Int) + gap
  acct.growExternal tip.toNat

/-- accounts.py lines 271 to 278, UTXOsForTXID.  The body reads
self.unconfirmedUTXOs, an attribute that no code path ever creates
(__init__ does not set it, and the only other mention, in addUTXO,
also begins by reading it), so the call always raises AttributeError. -/
def Account.UTXOsForTXID (_acct : Account) (_txid : String) : Except PyErr (List UTXO) :=
  Except.error ⟨"AttributeError", "Account object has no attribute unconfirmedUTXOs"⟩

/-- accounts.py lines 306 to 322, confirmTx: pop the transaction from
mempool, then iterate UTXOsForTXID(txid) setting heights.  The pop
happens first and persists; the UTXOsForTXID call then raises (see
above), so the height-setting loop body is unreachable and is omitted
here. -/
def Account.confirmTx (acct : Account) (tx : Tx) (_blockHeight : Int) :
    Account × Except PyErr Unit :=
  let a1 := { acct with mempool := popKey tx.txid acct.mempool }
  match a1.UTXOsForTXID tx.txid with
  | Except.error e => (a1, Except.error e)
  | Except.ok _ => (a1, Except.ok ())

/-- The six buffers zeroed by close, as they stand after the zero
calls (the references are dropped from the account, but the mutable
bytearrays themselves persist in memory). -/
structure ClosedBuffers where
  privKeyKey : Bytes
  privKeyPub : Bytes
  extPubKey : Bytes
  extPubPub : Bytes
  intPubKey : Bytes
  intPubPub : Bytes

/-- A private extended key with its key and pubKey buffers zeroed in
place. -/
def ExtendedKey.zeroed (k : ExtendedKey) : ExtendedKey :=
  { k with key := zeroBytes k.key, pubKey := zeroBytes k.pubKey }

/-- A branch public key with its key and pubKey buffers zeroed in
place. -/
def BranchPub.zeroed (b : BranchPub) : BranchPub :=
  { b with key := zeroBytes b.key, pubKey := zeroBytes b.pubKey }

/-- accounts.py lines 468 to 483, Account.open.  The decryption of the
private extended key (decodeExtendedKey), its neutering, and the
derivation of the two branch children are crypto-package calls not
under src/; spec section 6 makes them external capabilities, so the
decoded private key and the two derived branch public keys enter as
parameters.  The account records the network and caches the three
keys. -/
def Account.openAcct (acct : Account) (net : Network) (pk : ExtendedKey)
    (extPub intPub : BranchPub) : Account :=
  { acct with
      net := some net
      privKey := some pk
      extPub := some extPub
      intPub := some intPub }

/-- accounts.py lines 484 to 497, Account.close.  When privKey is set
(a non-None object is always truthy) the six buffers are zeroed in
order — privKey.key, privKey.pubKey, extPub.key, extPub.pubKey,
intPub.key, intPub.pubKey — and then the three references are set to
None.  When privKey is None the zeroing block is skipped and the
references are simply set to None.  If privKey is set while a branch
key is None, the zeroing block itself raises AttributeError midway,
leaving the already-zeroed keys in place; the result carries the final
account state, the zeroed buffers when the block completed, and the
raised error if any. -/
def Account.close (acct : Account) : Account × Option ClosedBuffers × Option PyErr :=
  match acct.privKey with
  | none => ({ acct with privKey := none, extPub := none, intPub := none }, none, none)
  | some pk =>
    match acct.extPub with
    | none =>
      ({ acct with privKey := some pk.zeroed }, none,
        some ⟨"AttributeError", "NoneType object has no attribute key"⟩)
    | some ep =>
      match acct.intPub with
      | none =>
        ({ acct with privKey := some pk.zeroed, extPub := some ep.zeroed }, none,
          some ⟨"AttributeError", "NoneType object has no attribute key"⟩)
      | some ip =>
        ({ acct with privKey := none, extPub := none, intPub := none },
          some
            { privKeyKey := zeroBytes pk.key
              privKeyPub := zeroBytes pk.pubKey
              extPubKey := zeroBytes ep.key
              extPubPub := zeroBytes ep.pubKey
              intPubKey := zeroBytes ip.key
              intPubPub := zeroBytes ip.pubKey },
          none)

/-- n successive calls of generateNextPaymentAddress, stopping at the
first error. -/
def Account.generateN (acct : Account) : Nat → Account × Option PyErr
  | 0 => (acct, none)
  | n + 1 =>
    match acct.generateNextPaymentAddress with
    | (a1, Except.ok _) => Account.generateN a1 n
    | (a1, Except.error e) => (a1, some e)

/-- The external-branch counter invariant of the address ledgers:
len(externalAddresses) == lastExternalIndex + 1. -/
abbrev ExtInv (a : Account) : Prop :=
  (a.externalAddresses.length : Int) = a.lastExternalIndex + 1

/-- The internal-branch counter invariant:
len(internalAddresses) == lastInternalIndex + 1. -/
abbrev IntInv (a : Account) : Prop :=
  (a.internalAddresses.length : Int) = a.lastInternalIndex + 1

/-- accounts.py lines 632 to 792, createNewAccountManager.  The first
statement rejects an empty private passphrase with a plain Exception;
the second derives the master key via newMaster.  Everything after
that (coin-type and account key derivation, secret-key construction,
random symmetric keys, encryption, the open/generate/close cycle on
the zeroth account) runs entirely through crypto-package and random
primitives that are not under src/, and is abstracted as an explicit
continuation invoked only when the passphrase check and the master-key
derivation have both succeeded. -/
def createNewAccountManager {α : Type} (hmacSha512 : Bytes → Bytes → Bytes)
    (seed : Bytes) (_pubPassphrase privPassphrase : Bytes) (chainParams : Network)
    (rest : ExtendedKey → Except PyErr α) : Except PyErr α :=
  if privPassphrase.length = 0 then
    Except.error ⟨"Exception", "createAddressManager: private passphrase cannot be empty"⟩
  else
    match newMaster hmacSha512 seed chainParams with
    | Except.error e => Except.error e
    | Except.ok root => rest root

/-- An arbitrary concrete network-parameter value, used to instantiate
theorems at concrete inputs. -/
def testNet : Network :=
  { HDPrivateKeyID := [2, 253, 164, 232]
    HDPublicKeyID := [2, 253, 169, 38]
    CoinbaseMaturity := 256 }

/-- A concrete branch public key whose derivation always fails with
the range error, so the sentinel CrazyAddress is used; used to
instantiate theorems at concrete inputs. -/
def testBranchPub : BranchPub :=
  { key := [5, 6], pubKey := [7, 8], derive := fun _ => none }

/-- A concrete branch public key with a total derivation function. -/
def testBranchPub2 : BranchPub :=
  { key := [9], pubKey := [10], derive := fun i => some (String.append "addr" (toString i)) }

/-- A concrete UTXO. -/
def testUtxo : UTXO :=
  { txid := "t1", vout := 0, address := "a0", satoshis := 9,
    height := some 1, maturity := none, confirmed := true }

/-- A concrete pending transaction with id t1. -/
def testTx1 : Tx := { txid := "t1", looksLikeCoinbase := true }

/-- A concrete pending transaction with id t2. -/
def testTx2 : Tx := { txid := "t2", looksLikeCoinbase := false }

/-- An account tracking one UTXO. -/
def acctOneUtxo : Account :=
  { Account.mk0 "pubEnc" "privEnc" "default" with utxos := [("t1#0", testUtxo)] }

/-- An account with an empty UTXO map but a stale cached balance. -/
def acctStaleBalance : Account :=
  { Account.mk0 "pubEnc" "privEnc" "default" with
      balance := { total := 7, available := 7, avail := none } }

/-- An open account with one external address and the cursor on it. -/
def acctOpenOne : Account :=
  { Account.mk0 "pubEnc" "privEnc" "default" with
      externalAddresses := ["a0"]
      lastExternalIndex := 0
      extPub := some testBranchPub }

/-- An account whose external ledger violates the index-length
invariant. -/
def acctBadExt : Account :=
  { Account.mk0 "pubEnc" "privEnc" "default" with externalAddresses := ["a0", "a1"] }

/-- An account whose internal ledger violates the index-length
invariant. -/
def acctBadInt : Account :=
  { Account.mk0 "pubEnc" "privEnc" "default" with internalAddresses := ["c0"] }

/-- A fresh open account with no addresses yet. -/
def acctOpenFresh : Account :=
  { Account.mk0 "pubEnc" "privEnc" "default" with extPub := some testBranchPub2 }

/-- An open account where external address a0, at index 0, has
transaction activity. -/
def acctGapUsed : Account :=
  { Account.mk0 "pubEnc" "privEnc" "default" with
      externalAddresses := ["a0"]
      lastExternalIndex := 0
      txs := [("a0", ["t1"])]
      extPub := some testBranchPub }

/-- An account with mempool entries and a tracked UTXO. -/
def acctMempool : Account :=
  { Account.mk0 "pubEnc" "privEnc" "default" with
      net := some testNet
      mempool := [("t1", testTx1), ("t2", testTx2)]
      utxos := [("t1#0", testUtxo)] }

/-- A never-opened account. -/
def acctFresh : Account := Account.mk0 "pubEnc" "privEnc" "default"

/-- A concrete private extended key with non-zero buffers. -/
def testPrivKey : ExtendedKey :=
  { privVer := [2, 253, 164, 232]
    pubVer := [2, 253, 169, 38]
    key := [11, 12, 13]
    pubKey := [14, 15]
    chainCode := [16, 17]
    parentFP := [0, 0, 0, 0]
    depth := 3
    childNum := 0
    isPrivate := true }

/-- A 64-byte digest whose left half is the big-endian encoding of the
secp256k1 curve order, exercising the boundary of the master-key range
check. -/
def boundaryDigest : Bytes :=
  [255, 255, 255, 255, 255, 255, 255, 255, 255, 255, 255, 255, 255, 255, 255, 254,
   186, 174, 220, 230, 175, 72, 160, 59, 191, 210, 94, 140, 208, 54, 65, 65] ++
  List.replicate 32 0

/-- A 64-byte digest whose left-half scalar is 1. -/
def unitDigest : Bytes := List.replicate 31 0 ++ [1] ++ List.replicate 32 7

/-- A 32-byte all-zero seed, of accepted length. -/
def testSeed32 : Bytes := List.replicate 32 0

theorem allZero_zeroBytes (b : Bytes) : allZero (zeroBytes b) := by
  intro x hx
  simp [zeroBytes] at hx
  exact hx.2

theorem generate_ok_length {a a1 : Account} {s : String}
    (h : a.generateNextPaymentAddress = (a1, Except.ok s)) :
    a1.externalAddresses.length = a.externalAddresses.length + 1 := by
  unfold Account.generateNextPaymentAddress at h
  split at h
  · simp at h
  · split at h
    · simp at h
    · simp only [Prod.mk.injEq, Except.ok.injEq] at h
      rw [← h.1]
      simp

/-- In the good case (invariant holding, branch key cached), the
generator appends the derived address, CrazyAddress when derivation
range-fails, and advances the index. -/
theorem generate_open_eq (a : Account) (pb : BranchPub)
    (hp : a.extPub = some pb) (hinv : ExtInv a) :
    a.generateNextPaymentAddress =
      ({ a with
          externalAddresses :=
            a.externalAddresses ++ [(pb.derive (a.lastExternalIndex + 1)).getD CrazyAddress]
          lastExternalIndex := a.lastExternalIndex + 1 },
        Except.ok ((pb.derive (a.lastExternalIndex + 1)).getD CrazyAddress)) := by
  unfold Account.generateNextPaymentAddress
  rw [if_neg (by simp [ExtInv] at hinv; omega), hp]
  cases hd : pb.derive (a.lastExternalIndex + 1) <;> simp [hd, Option.getD]

theorem growExternal_stop (a : Account) (t : Nat)
    (h : ¬ a.externalAddresses.length < t) :
    a.growExternal t = (a, none) := by
  unfold Account.growExternal
  rw [Nat.sub_eq_zero_of_le (Nat.le_of_not_lt h)]
  rfl

theorem growExternal_step (a : Account) (t : Nat)
    (h : a.externalAddresses.length < t) :
    a.growExternal t =
      match a.generateNextPaymentAddress with
      | (a1, Except.ok _) => a1.growExternal t
      | (a1, Except.error e) => (a1, some e) := by
  obtain ⟨k, hk⟩ : ∃ k, t - a.externalAddresses.length = k + 1 :=
    ⟨t - a.externalAddresses.length - 1, by omega⟩
  show Account.growLoop (t - a.externalAddresses.length) a t = _
  rw [hk]
  show (if a.externalAddresses.length < t then
      match a.generateNextPaymentAddress with
      | (a1, Except.ok _) => Account.growLoop k a1 t
      | (a1, Except.error e) => (a1, some e)
    else (a, none)) = _
  rw [if_pos h]
  cases hg : a.generateNextPaymentAddress with
  | mk a1 r =>
    cases r with
    | ok s =>
      have hlen := generate_ok_length hg
      have hk1 : t - a1.externalAddresses.length = k := by omega
      show Account.growLoop k a1 t = Account.growLoop (t - a1.externalAddresses.length) a1 t
      rw [hk1]
    | error e => rfl

/-- The growth loop in the good case: it terminates with no error, the
external list reaches max(length, target), and every other relevant
field is untouched. -/
theorem growExternal_open_spec (t : Nat) :
    ∀ (k : Nat) (a : Account) (pb : BranchPub), a.extPub = some pb → ExtInv a →
      t - a.externalAddresses.length ≤ k →
      (a.growExternal t).2 = none
      ∧ (a.growExternal t).1.externalAddresses.length = max a.externalAddresses.length t
      ∧ (a.growExternal t).1.cursor = a.cursor
      ∧ (a.growExternal t).1.extPub = a.extPub
      ∧ (a.growExternal t).1.intPub = a.intPub
      ∧ (a.growExternal t).1.internalAddresses = a.internalAddresses
      ∧ (a.growExternal t).1.lastInternalIndex = a.lastInternalIndex
      ∧ ExtInv (a.growExternal t).1 := by
  intro k
  induction k with
  | zero =>
    intro a pb hp hinv hk
    have hstop : ¬ a.externalAddresses.length < t := by omega
    rw [growExternal_stop a t hstop]
    refine ⟨rfl, ?_, rfl, rfl, rfl, rfl, rfl, hinv⟩
    dsimp only
    omega
  | succ k ih =>
    intro a pb hp hinv hk
    by_cases h : a.externalAddresses.length < t
    · rw [growExternal_step a t h, generate_open_eq a pb hp hinv]
      dsimp only
      have hp1 :
          (({ a with
              externalAddresses :=
                a.externalAddresses ++ [(pb.derive (a.lastExternalIndex + 1)).getD CrazyAddress]
              lastExternalIndex := a.lastExternalIndex + 1 } : Account)).extPub = some pb := hp
      have hinv1 :
          ExtInv ({ a with
              externalAddresses :=
                a.externalAddresses ++ [(pb.derive (a.lastExternalIndex + 1)).getD CrazyAddress]
              lastExternalIndex := a.lastExternalIndex + 1 } : Account) := by
        simp only [ExtInv] at hinv ⊢
        simp
        omega
      have hk1 :
          t - (({ a with
              externalAddresses :=
                a.externalAddresses ++ [(pb.derive (a.lastExternalIndex + 1)).getD CrazyAddress]
              lastExternalIndex := a.lastExternalIndex + 1 } : Account)).externalAddresses.length ≤ k := by
        simp
        omega
      have hrec := ih _ pb hp1 hinv1 hk1
      refine ⟨hrec.1, ?_, hrec.2.2.1, hrec.2.2.2.1, hrec.2.2.2.2.1, hrec.2.2.2.2.2.1,
        hrec.2.2.2.2.2.2.1, hrec.2.2.2.2.2.2.2⟩
      rw [hrec.2.1]
      simp
      omega
    · rw [growExternal_stop a t h]
      refine ⟨rfl, ?_, rfl, rfl, rfl, rfl, rfl, hinv⟩
      dsimp only
      omega

/-- close on a fully closed account is the identity, with no zeroing
and no error. -/
theorem close_of_closed (a : Account) (h1 : a.privKey = none)
    (h2 : a.extPub = none) (h3 : a.intPub = none) :
    a.close = (a, none, none) := by
  unfold Account.close
  rw [h1]
  simp only [Prod.mk.injEq, and_true]
  cases a
  simp_all

/-- C1: the claim says calcBalance(tipHeight) recomputes total as the
sum of all tracked UTXO amounts and available as the confirmed-mature
subset sum, overwriting both cached balance fields.  The code instead
raises AttributeError on any non-empty utxos map (it iterates the dict
keys, which are strings), and on an empty map it writes balance.avail,
a fresh attribute, leaving balance.available stale — here 7 > total =
0, also breaking available ≤ total. -/
theorem calcBalance_bug :
    (acctOneUtxo.calcBalance 100).2
      = Except.error ⟨"AttributeError", "str object has no attribute satoshis"⟩
    ∧ (acctStaleBalance.calcBalance 100).1.balance.total = 0
    ∧ (acctStaleBalance.calcBalance 100).1.balance.available = 7
    ∧ (acctStaleBalance.calcBalance 100).1.balance.avail = some 0 := by decide

/-- C2: after a successful open, close zero-fills all six cached key
buffers — privKey.key, privKey.pubKey and the key and pubKey buffers
of both branch public keys — and then sets privKey, extPub and intPub
to None, so no non-zero byte remains in any cached key buffer. -/
theorem close_zero_fills (acct : Account) (net : Network) (pk : ExtendedKey)
    (ep ip : BranchPub) :
    ((acct.openAcct net pk ep ip).close).2.2 = none
    ∧ ((acct.openAcct net pk ep ip).close).1.privKey = none
    ∧ ((acct.openAcct net pk ep ip).close).1.extPub = none
    ∧ ((acct.openAcct net pk ep ip).close).1.intPub = none
    ∧ ∃ bufs, ((acct.openAcct net pk ep ip).close).2.1 = some bufs
        ∧ allZero bufs.privKeyKey ∧ allZero bufs.privKeyPub
        ∧ allZero bufs.extPubKey ∧ allZero bufs.extPubPub
        ∧ allZero bufs.intPubKey ∧ allZero bufs.intPubPub :=
  ⟨rfl, rfl, rfl, rfl,
    ⟨_, rfl, allZero_zeroBytes _, allZero_zeroBytes _, allZero_zeroBytes _,
      allZero_zeroBytes _, allZero_zeroBytes _, allZero_zeroBytes _⟩⟩

/-- C3: the claim says getNextPaymentAddress advances the cursor,
grows the external list until the cursor is in range and returns the
address at the cursor.  The cursor advance and the growth do happen,
but the return statement calls the list instead of indexing it, so the
call raises TypeError and never returns an address. -/
theorem getNextPaymentAddress_bug :
    (acctOpenOne.getNextPaymentAddress).2
      = Except.error ⟨"TypeError", "list object is not callable"⟩
    ∧ (acctOpenOne.getNextPaymentAddress).1.cursor = 1
    ∧ (acctOpenOne.getNextPaymentAddress).1.externalAddresses = ["a0", "CRAZYADDRESS"] := by
  decide

/-- n successive successful generateNextPaymentAddress calls on an
account with the external branch key cached and the invariant holding:
no error occurs, the list grows by exactly n, the index advances by n,
and the invariant still holds. -/
theorem generateN_spec (n : Nat) :
    ∀ (a : Account) (pb : BranchPub), a.extPub = some pb → ExtInv a →
      (a.generateN n).2 = none
      ∧ (a.generateN n).1.externalAddresses.length = a.externalAddresses.length + n
      ∧ (a.generateN n).1.lastExternalIndex = a.lastExternalIndex + (n : Int)
      ∧ ExtInv (a.generateN n).1 := by
  induction n with
  | zero =>
    intro a pb hp hinv
    exact ⟨rfl, rfl, by simp [Account.generateN], hinv⟩
  | succ n ih =>
    intro a pb hp hinv
    have heq := generate_open_eq a pb hp hinv
    have hinv1 :
        ExtInv ({ a with
            externalAddresses :=
              a.externalAddresses ++ [(pb.derive (a.lastExternalIndex + 1)).getD CrazyAddress]
            lastExternalIndex := a.lastExternalIndex + 1 } : Account) := by
      simp only [ExtInv] at hinv ⊢
      simp
      omega
    have hrec := ih ({ a with
        externalAddresses :=
          a.externalAddresses ++ [(pb.derive (a.lastExternalIndex + 1)).getD CrazyAddress]
        lastExternalIndex := a.lastExternalIndex + 1 }) pb hp hinv1
    simp only [Account.generateN, heq]
    refine ⟨hrec.1, ?_, ?_, hrec.2.2.2⟩
    · rw [hrec.2.1]
      simp
      omega
    · rw [hrec.2.2.1]
      dsimp only
      omega

/-- C4: both branch generators check len(addressList) == lastIndex + 1
on entry and raise the index-address length mismatch Exception, state
untouched, when it fails; otherwise they append exactly one address
and advance the index, so n successful generateNextPaymentAddress
calls grow the external list by exactly n with the invariant
re-established each time. -/
theorem branch_index_invariant :
    (∀ a : Account, ¬ ExtInv a →
        a.generateNextPaymentAddress
          = (a, Except.error ⟨"Exception", "index-address length mismatch"⟩))
    ∧ (∀ a : Account, ¬ IntInv a →
        a.getChangeAddress
          = (a, Except.error
              ⟨"Exception", "index-address length mismatch while generating change address"⟩))
    ∧ (∀ (a : Account) (pb : BranchPub), a.extPub = some pb → ExtInv a →
        ∃ addr, a.generateNextPaymentAddress
          = ({ a with
                externalAddresses := a.externalAddresses ++ [addr]
                lastExternalIndex := a.lastExternalIndex + 1 }, Except.ok addr))
    ∧ (∀ (a : Account) (pb : BranchPub), a.extPub = some pb → ExtInv a → ∀ n : Nat,
        (a.generateN n).2 = none
        ∧ (a.generateN n).1.externalAddresses.length = a.externalAddresses.length + n
        ∧ (a.generateN n).1.lastExternalIndex = a.lastExternalIndex + (n : Int)
        ∧ ExtInv (a.generateN n).1) := by
  refine ⟨?_, ?_, ?_, fun a pb hp hinv n => generateN_spec n a pb hp hinv⟩
  · intro a h
    unfold Account.generateNextPaymentAddress
    rw [if_pos h]
  · intro a h
    unfold Account.getChangeAddress
    rw [if_pos h]
  · intro a pb hp hinv
    exact ⟨_, generate_open_eq a pb hp hinv⟩

/-- Concrete instance of the C4 theorem: both mismatch errors fire on
ill-formed ledgers, and three successful generator calls on a fresh
open account leave three addresses and index 2. -/
theorem branch_index_invariant_witness :
    acctBadExt.generateNextPaymentAddress
      = (acctBadExt, Except.error ⟨"Exception", "index-address length mismatch"⟩)
    ∧ acctBadInt.getChangeAddress
      = (acctBadInt, Except.error
          ⟨"Exception", "index-address length mismatch while generating change address"⟩)
    ∧ (acctOpenFresh.generateN 3).2 = none
    ∧ (acctOpenFresh.generateN 3).1.externalAddresses.length = 3
    ∧ (acctOpenFresh.generateN 3).1.lastExternalIndex = 2 := by
  have h4 := branch_index_invariant.2.2.2 acctOpenFresh testBranchPub2 rfl (by decide) 3
  refine ⟨branch_index_invariant.1 acctBadExt (by decide),
    branch_index_invariant.2.1 acctBadInt (by decide), h4.1, ?_, ?_⟩
  · rw [h4.2.1]
    decide
  · rw [h4.2.2.1]
    decide

/-- C5 counterexample: a digest whose left half encodes exactly the
secp256k1 curve order is accepted by newMaster, although the claim
requires a key-range error whenever the scalar is not strictly below
the curve order; the source compares with strict > against
MAX_SECRET_INT, which equals the curve order. -/
theorem newMaster_boundary_cex :
    (newMaster (fun _ _ => boundaryDigest) testSeed32 testNet).isOk = true
    ∧ fromBytesBE (boundaryDigest.take (boundaryDigest.length / 2)) = secp256k1Order
    ∧ ¬ fromBytesBE (boundaryDigest.take (boundaryDigest.length / 2)) < secp256k1Order := by
  decide

/-- C5 amended: newMaster splits the 64-byte digest into the candidate
scalar (left half, big-endian) and the chain code (right half), raises
the key-range error exactly when the scalar is 0 or exceeds
MAX_SECRET_INT (numerically the curve order, so a scalar equal to the
curve order is accepted), and otherwise returns a private key at depth
0, child number 0, zero parent fingerprint. -/
theorem newMaster_range_check (digest : Bytes → Bytes → Bytes) (seed : Bytes) (net : Network)
    (hmin : MinSeedBytes ≤ seed.length) (hmax : seed.length ≤ MaxSeedBytes) :
    (newMaster digest seed net
        = Except.error ⟨"KeyLengthException", "generated key was outside acceptable range"⟩
      ↔ (fromBytesBE ((digest MASTER_KEY seed).take ((digest MASTER_KEY seed).length / 2)) = 0
          ∨ MAX_SECRET_INT
            < fromBytesBE ((digest MASTER_KEY seed).take ((digest MASTER_KEY seed).length / 2))))
    ∧ (0 < fromBytesBE ((digest MASTER_KEY seed).take ((digest MASTER_KEY seed).length / 2))
        → fromBytesBE ((digest MASTER_KEY seed).take ((digest MASTER_KEY seed).length / 2))
            ≤ MAX_SECRET_INT
        → newMaster digest seed net
          = Except.ok
              { privVer := net.HDPrivateKeyID
                pubVer := net.HDPublicKeyID
                key := (digest MASTER_KEY seed).take ((digest MASTER_KEY seed).length / 2)
                pubKey := []
                chainCode := (digest MASTER_KEY seed).drop ((digest MASTER_KEY seed).length / 2)
                parentFP := [0, 0, 0, 0]
                depth := 0
                childNum := 0
                isPrivate := true }) := by
  unfold newMaster
  rw [if_pos ⟨hmin, hmax⟩]
  constructor
  · by_cases hcond :
        MAX_SECRET_INT
            < fromBytesBE ((digest MASTER_KEY seed).take ((digest MASTER_KEY seed).length / 2))
          ∨ fromBytesBE ((digest MASTER_KEY seed).take ((digest MASTER_KEY seed).length / 2)) = 0
    · rw [if_pos hcond]
      simp only [true_iff]
      tauto
    · rw [if_neg hcond]
      constructor
      · intro h
        simp at h
      · intro h
        exact absurd (Or.symm h) hcond
  · intro h1 h2
    rw [if_neg (by omega)]

/-- Concrete instance of the C5 amended theorem: a digest with scalar
1 yields the depth-0 private extended key with the split halves. -/
theorem newMaster_range_check_witness :
    newMaster (fun _ _ => unitDigest) testSeed32 testNet
      = Except.ok
          { privVer := testNet.HDPrivateKeyID
            pubVer := testNet.HDPublicKeyID
            key := unitDigest.take (unitDigest.length / 2)
            pubKey := []
            chainCode := unitDigest.drop (unitDigest.length / 2)
            parentFP := [0, 0, 0, 0]
            depth := 0
            childNum := 0
            isPrivate := true } :=
  (newMaster_range_check (fun _ _ => unitDigest) testSeed32 testNet
    (by decide) (by decide)).2 (by decide) (by decide)

/-- C6: the claim says confirmTx removes the transaction from mempool
and sets height (and coinbase maturity) on every UTXO tracked under
its id.  The mempool removal happens, but the UTXOsForTXID call then
reads the never-created unconfirmedUTXOs attribute and raises
AttributeError, so no UTXO is ever updated. -/
theorem confirmTx_bug :
    (acctMempool.confirmTx testTx1 100).2
      = Except.error ⟨"AttributeError", "Account object has no attribute unconfirmedUTXOs"⟩
    ∧ (acctMempool.confirmTx testTx1 100).1.mempool = [("t2", testTx2)]
    ∧ (acctMempool.confirmTx testTx1 100).1.utxos = [("t1#0", testUtxo)] := by decide

/-- C7 counterexample: an open account whose only external address,
at index 0, has transaction activity.  generateGapAddresses(2) stops
at 2 external addresses, which leaves only 1 address past the highest
used index — fewer than the gap of 2 the claim requires. -/
theorem generateGapAddresses_cex :
    (acctGapUsed.generateGapAddresses 2).2 = none
    ∧ Account.highestUsedExt acctGapUsed = 0
    ∧ (acctGapUsed.generateGapAddresses 2).1.externalAddresses.length = 2
    ∧ ¬ (Account.highestUsedExt acctGapUsed + 1 + 2
          ≤ (acctGapUsed.generateGapAddresses 2).1.externalAddresses.length) := by decide

/-- C7 amended: on an open account with a consistent external ledger,
generateGapAddresses(gap) finds the highest external index among the
addresses keyed in the transaction map (0 when none is found) and
extends the external list until it has at least highest + gap entries
— that is, at least gap - 1 addresses past the highest used index —
leaving the cursor unchanged; with highest index 3 and gap 20 at least
23 external addresses exist afterwards. -/
theorem generateGapAddresses_amended (a : Account) (pb : BranchPub) (gap : Int)
    (hp : a.extPub = some pb) (hinv : ExtInv a) (hgap : 0 < gap) :
    (a.generateGapAddresses gap).2 = none
    ∧ (a.generateGapAddresses gap).1.externalAddresses.length
        = max a.externalAddresses.length ((a.highestUsedExt : Int) + gap).toNat
    ∧ (a.generateGapAddresses gap).1.cursor = a.cursor
    ∧ (a.highestUsedExt = 3 → gap = 20 →
        23 ≤ (a.generateGapAddresses gap).1.externalAddresses.length) := by
  have h := growExternal_open_spec ((a.highestUsedExt : Int) + gap).toNat
    ((a.highestUsedExt : Int) + gap).toNat a pb hp hinv (by omega)
  refine ⟨h.1, h.2.1, h.2.2.1, ?_⟩
  intro h3 h20
  subst h20
  have hlen : (a.generateGapAddresses 20).1.externalAddresses.length
      = max a.externalAddresses.length ((a.highestUsedExt : Int) + 20).toNat := h.2.1
  rw [hlen, h3]
  omega

/-- Concrete instance of the C7 amended theorem: on an open account
with one external address and no transaction activity, a gap of 5
grows the list to max(1, 5) entries with the cursor unchanged. -/
theorem generateGapAddresses_amended_witness :
    (acctOpenOne.generateGapAddresses 5).2 = none
    ∧ (acctOpenOne.generateGapAddresses 5).1.externalAddresses.length
        = max acctOpenOne.externalAddresses.length
            ((Account.highestUsedExt acctOpenOne : Int) + 5).toNat
    ∧ (acctOpenOne.generateGapAddresses 5).1.cursor = acctOpenOne.cursor := by
  have h := generateGapAddresses_amended acctOpenOne testBranchPub 5 rfl (by decide) (by decide)
  exact ⟨h.1, h.2.1, h.2.2.1⟩

/-- C8: the claim says a closed account returns from
generateGapAddresses with only a warning, leaving everything unchanged
and raising no error.  The source has no return after the warning, so
whenever the growth loop must run it calls the generator, which raises
AttributeError on the absent branch key. -/
theorem generateGapAddresses_closed_bug :
    (acctFresh.generateGapAddresses 1).2
      = some ⟨"AttributeError", "NoneType object has no attribute deriveChildAddress"⟩
    ∧ (acctFresh.generateGapAddresses 1).1.externalAddresses = []
    ∧ (acctFresh.generateGapAddresses 1).1.cursor = 0 := by decide

/-- C9 counterexample: with an empty private passphrase the creation
routine raises the builtin Exception class, not a ConfigurationError. -/
theorem createNewAccountManager_cex :
    createNewAccountManager (fun _ _ => unitDigest) testSeed32 [] [] testNet
        (fun _ => Except.ok ())
      = Except.error ⟨"Exception", "createAddressManager: private passphrase cannot be empty"⟩
    ∧ ("Exception" : String) ≠ "ConfigurationError" :=
  ⟨rfl, by decide⟩

/-- C9 amended: an empty private passphrase makes
createNewAccountManager fail with a plain Exception (message
createAddressManager: private passphrase cannot be empty), and it does
so before any key material is generated: the result is the same for
every digest function, every seed, and every continuation standing for
the key-derivation and encryption work after the check. -/
theorem createNewAccountManager_empty_pass {α : Type} (digest : Bytes → Bytes → Bytes)
    (seed pubPass privPass : Bytes) (net : Network) (rest : ExtendedKey → Except PyErr α)
    (h : privPass.length = 0) :
    createNewAccountManager digest seed pubPass privPass net rest
      = Except.error ⟨"Exception", "createAddressManager: private passphrase cannot be empty"⟩ := by
  unfold createNewAccountManager
  rw [if_pos h]

/-- Concrete instance of the C9 amended theorem. -/
theorem createNewAccountManager_empty_pass_witness :
    createNewAccountManager (fun _ _ => boundaryDigest) testSeed32 [] [] testNet
        (fun _ => Except.ok ())
      = Except.error ⟨"Exception", "createAddressManager: private passphrase cannot be empty"⟩ :=
  createNewAccountManager_empty_pass (fun _ _ => boundaryDigest) testSeed32 [] [] testNet
    (fun _ => Except.ok ()) rfl

/-- C10: on an account whose privKey is None with no cached branch
keys — never opened, or already closed — close() raises no error,
performs no zeroing, and leaves the account unchanged; and after any
non-erroring close, a second close is exactly the same no-op, so close
followed by close equals a single close. -/
theorem close_idempotent :
    (∀ a : Account, a.privKey = none → a.extPub = none → a.intPub = none →
        a.close = (a, none, none))
    ∧ (∀ (a a1 : Account) (bufs : Option ClosedBuffers),
        a.close = (a1, bufs, none) → a1.close = (a1, none, none)) := by
  refine ⟨close_of_closed, ?_⟩
  intro a a1 bufs h
  unfold Account.close at h
  split at h
  · simp only [Prod.mk.injEq] at h
    obtain ⟨h1, h2, h3⟩ := h
    subst h1
    exact close_of_closed _ rfl rfl rfl
  · split at h
    · simp at h
    · split at h
      · simp at h
      · simp only [Prod.mk.injEq] at h
        obtain ⟨h1, h2, h3⟩ := h
        subst h1
        exact close_of_closed _ rfl rfl rfl

/-- Concrete instance of the C10 theorem: closing a never-opened
account is a no-op, and closing twice equals closing once. -/
theorem close_idempotent_witness :
    acctFresh.close = (acctFresh, none, none)
    ∧ (acctFresh.close).1.close = ((acctFresh.close).1, none, none) := by
  have h1 := close_idempotent.1 acctFresh rfl rfl rfl
  have h2 := close_idempotent.2 acctFresh acctFresh none h1
  exact ⟨h1, by rw [h1]; exact h2⟩

end Tinydecred
